import Mathlib

/-!
Shallow embedding of the query layer of `rocketmad/models.py`
(repository Chefkeks/RocketMAD).

Conventions of the embedding:
* coordinates (`latitude`, `longitude`, the `swLat`/`swLng`/`neLat`/`neLng`
  arguments) are rationals; the optional arguments are `Option ℚ`, with
  `none` for Python `None`;
* instants in the query layer are `Int` timestamps measured in milliseconds,
  so that `datetime.utcfromtimestamp(timestamp / 1000)` is the instant
  `timestamp` itself on this scale; nullable datetime columns are
  `Option Int` and a SQL comparison against NULL yields false;
* the despawn-inference layer of `TrsSpawn.get_spawnpoints` works on local
  wall-clock instants measured in `Nat` microseconds since an epoch aligned
  to an hour boundary (`datetime.today()` is the parameter `now`), so that
  `replace(minute=mm, second=ss, microsecond=0)` keeps `now`'s date and
  hour and sets the minute, second and microsecond fields.
-/

/-- Python truthiness of an optional float argument: `None` and `0.0`
are falsy, every other float is truthy. -/
def truthy : Option ℚ → Bool
  | none => false
  | some x => decide (x ≠ 0)

/-- The four optional viewport arguments of a query
(`swLat, swLng, neLat, neLng`, or `oSwLat, oSwLng, oNeLat, oNeLng`). -/
structure QueryBounds where
  swLat : Option ℚ
  swLng : Option ℚ
  neLat : Option ℚ
  neLng : Option ℚ
deriving DecidableEq

/-- `swLat and swLng and neLat and neLng` as a boolean: all four arguments
supplied and truthy. -/
def QueryBounds.present (b : QueryBounds) : Bool :=
  truthy b.swLat && truthy b.swLng && truthy b.neLat && truthy b.neLng

/-- All four viewport arguments left at their `None` defaults. -/
def noBounds : QueryBounds := ⟨none, none, none, none⟩

/-- The four-comparison containment test appearing in each geographic branch:
`latitude >= swLat, longitude >= swLng, latitude <= neLat, longitude <= neLng`.
The code only builds these comparisons after the truthiness test, so all four
bounds are supplied there; on partially supplied bounds we return `false`. -/
def inBox (lat lng : ℚ) (b : QueryBounds) : Bool :=
  match b.swLat, b.swLng, b.neLat, b.neLng with
  | some a, some c, some d, some e =>
    decide (a ≤ lat) && decide (c ≤ lng) && decide (lat ≤ d) && decide (lng ≤ e)
  | _, _, _, _ => false

/-- The four branches of the shared
`if not (swLat and swLng and neLat and neLng): ... elif timestamp > 0: ...
elif oSwLat and oSwLng and oNeLat and oNeLng: ... else: ...` cascade. -/
inductive SyncMode where
  | noBox
  | delta
  | panned
  | fallback
deriving DecidableEq

/-- Which branch of the cascade a query takes, as a function of the supplied
arguments. -/
def selectMode (b ob : QueryBounds) (timestamp : Int) : SyncMode :=
  if b.present = false then .noBox
  else if 0 < timestamp then .delta
  else if ob.present then .panned
  else .fallback

/-- SQL comparison `column > t` on a nullable datetime column
(NULL compares false). -/
def ltOpt (t : Int) : Option Int → Bool
  | some v => decide (t < v)
  | none => false

/-- SQL comparison `column >= t` on a nullable datetime column
(NULL compares false). -/
def leOpt (t : Int) : Option Int → Bool
  | some v => decide (t ≤ v)
  | none => false

/-- The columns of the `Pokemon` table that `Pokemon.get_active` filters on.
`disappear_time` is NOT NULL; `last_modified` is nullable. -/
structure Pokemon where
  encounter_id : Nat
  pokemon_id : Nat
  latitude : ℚ
  longitude : ℚ
  disappear_time : Int
  last_modified : Option Int
deriving DecidableEq

/-- `if eids: query.filter(pokemon_id.notin_(eids)) elif ids:
query.filter(pokemon_id.in_(ids))`; absent sets are the empty list
(Python `None` and `[]` are both falsy). -/
def idCond (eids ids : List Nat) (pid : Nat) : Bool :=
  if eids ≠ [] then !(eids.contains pid)
  else if ids ≠ [] then ids.contains pid
  else true

/-- The row predicate built by `Pokemon.get_active`. -/
def Pokemon.passes (b ob : QueryBounds) (timestamp now : Int)
    (eids ids : List Nat) (p : Pokemon) : Bool :=
  idCond eids ids p.pokemon_id &&
  (if b.present = false then
    decide (now < p.disappear_time)
  else if 0 < timestamp then
    ltOpt timestamp p.last_modified && decide (now < p.disappear_time) &&
      inBox p.latitude p.longitude b
  else if ob.present then
    decide (now < p.disappear_time) && inBox p.latitude p.longitude b &&
      !(inBox p.latitude p.longitude ob)
  else
    decide (now < p.disappear_time) && inBox p.latitude p.longitude b)

/-- `Pokemon.get_active` restricted to the rows it returns (the projection to
a dict keeps every filtered row, one record per row). -/
def Pokemon.get_active (d : List Pokemon) (b ob : QueryBounds)
    (timestamp now : Int) (eids ids : List Nat) : List Pokemon :=
  d.filter (Pokemon.passes b ob timestamp now eids ids)

/-- The ids (`encounter_id` primary keys) of the records returned by
`Pokemon.get_active`. -/
def Pokemon.activeIds (d : List Pokemon) (b ob : QueryBounds)
    (timestamp now : Int) (eids ids : List Nat) : List Nat :=
  (Pokemon.get_active d b ob timestamp now eids ids).map (·.encounter_id)

/-- The geographic/liveness conjunction each branch of `Pokemon.get_active`
imposes beyond the id filter. -/
def modeCond : SyncMode → QueryBounds → QueryBounds → Int → Int → Pokemon → Bool
  | .noBox, _, _, _, now, p => decide (now < p.disappear_time)
  | .delta, b, _, ts, now, p =>
      ltOpt ts p.last_modified && decide (now < p.disappear_time) &&
        inBox p.latitude p.longitude b
  | .panned, b, ob, _, now, p =>
      decide (now < p.disappear_time) && inBox p.latitude p.longitude b &&
        !(inBox p.latitude p.longitude ob)
  | .fallback, b, _, _, now, p =>
      decide (now < p.disappear_time) && inBox p.latitude p.longitude b

/-- The columns of the `ScannedLocation` table used by
`ScannedLocation.get_recent`. -/
structure ScannedLocation where
  cellid : Nat
  latitude : ℚ
  longitude : ℚ
  last_modified : Option Int
deriving DecidableEq

/-- The row predicate built by `ScannedLocation.get_recent`;
`active_time = datetime.utcnow() - timedelta(minutes=15)`. -/
def ScannedLocation.passes (b ob : QueryBounds) (timestamp now : Int)
    (r : ScannedLocation) : Bool :=
  let active_time := now - 15 * 60 * 1000
  if b.present = false then
    leOpt active_time r.last_modified
  else if 0 < timestamp then
    leOpt timestamp r.last_modified && inBox r.latitude r.longitude b
  else if ob.present then
    leOpt active_time r.last_modified && inBox r.latitude r.longitude b &&
      !(inBox r.latitude r.longitude ob)
  else
    leOpt active_time r.last_modified && inBox r.latitude r.longitude b

/-- `ScannedLocation.get_recent` restricted to the rows it returns. -/
def ScannedLocation.get_recent (d : List ScannedLocation) (b ob : QueryBounds)
    (timestamp now : Int) : List ScannedLocation :=
  d.filter (ScannedLocation.passes b ob timestamp now)

/-- The ids (`cellid` primary keys) of the records returned by
`ScannedLocation.get_recent`. -/
def ScannedLocation.recentIds (d : List ScannedLocation) (b ob : QueryBounds)
    (timestamp now : Int) : List Nat :=
  (ScannedLocation.get_recent d b ob timestamp now).map (·.cellid)

/-- `lat_delta = 0.15` in `Weather.get_weather` (exact decimal as a rational). -/
def lat_delta : ℚ := 15 / 100

/-- `lng_delta = 0.4` in `Weather.get_weather` (exact decimal as a rational). -/
def lng_delta : ℚ := 4 / 10

/-- The columns of the `Weather` table used by `Weather.get_weather`.
`last_updated` is nullable. -/
structure Weather where
  s2_cell_id : String
  latitude : ℚ
  longitude : ℚ
  last_updated : Option Int
deriving DecidableEq

/-- Symmetric expansion of supplied bounds by the weather tolerance:
`float(swLat) - lat_delta`, `float(swLng) - lng_delta`,
`float(neLat) + lat_delta`, `float(neLng) + lng_delta`. -/
def expand (b : QueryBounds) : QueryBounds :=
  ⟨b.swLat.map (fun v => v - lat_delta), b.swLng.map (fun v => v - lng_delta),
   b.neLat.map (fun v => v + lat_delta), b.neLng.map (fun v => v + lng_delta)⟩

/-- The row predicate built by `Weather.get_weather`: same cascade as the
other queries, with every containment comparison taken against the
delta-expanded bounds and no liveness condition. -/
def Weather.passes (b ob : QueryBounds) (timestamp : Int) (w : Weather) : Bool :=
  if b.present = false then
    true
  else if 0 < timestamp then
    ltOpt timestamp w.last_updated && inBox w.latitude w.longitude (expand b)
  else if ob.present then
    inBox w.latitude w.longitude (expand b) &&
      !(inBox w.latitude w.longitude (expand ob))
  else
    inBox w.latitude w.longitude (expand b)

/-- `Weather.get_weather` restricted to the rows it returns. -/
def Weather.get_weather (d : List Weather) (b ob : QueryBounds)
    (timestamp : Int) : List Weather :=
  d.filter (Weather.passes b ob timestamp)

/-- The columns of the `Pokestop` table that `Pokestop.get_pokestops` reads.
All the datetime and sub-feature columns are nullable. -/
structure Pokestop where
  pokestop_id : String
  latitude : ℚ
  longitude : ℚ
  last_updated : Option Int
  incident_grunt_type : Option Int
  incident_expiration : Option Int
  active_fort_modifier : Option Int
  lure_expiration : Option Int
deriving DecidableEq

/-- The columns of the `TrsQuest` table used by the quest join of
`Pokestop.get_pokestops`. -/
structure TrsQuest where
  GUID : String
  quest_timestamp : Int
  quest_task : String
deriving DecidableEq

/-- The quest outer-join partner of a stop: a `TrsQuest` row with
`GUID == pokestop_id` and `quest_timestamp >= today_timestamp`
(`today_timestamp` is local midnight of the query day). -/
def questFor (qd : List TrsQuest) (todayTs : Int) (sid : String) :
    Option TrsQuest :=
  qd.find? (fun q => q.GUID == sid && decide (todayTs ≤ q.quest_timestamp))

/-- The `if not eventless_stops: query.filter(or_(*terms))` condition: one
term per enabled sub-feature, disjoined; with no term the row is dropped. -/
def eventCond (qd : List TrsQuest) (todayTs now : Int)
    (eventless_stops quests invasions lures : Bool) (r : Pokestop) : Bool :=
  if eventless_stops = false then
    (quests && (questFor qd todayTs r.pokestop_id).isSome) ||
    (invasions && ltOpt now r.incident_expiration) ||
    (lures && ltOpt now r.lure_expiration)
  else true

/-- The row predicate built by `Pokestop.get_pokestops`. -/
def Pokestop.passes (qd : List TrsQuest) (todayTs : Int) (b ob : QueryBounds)
    (timestamp now : Int) (eventless_stops quests invasions lures : Bool)
    (r : Pokestop) : Bool :=
  eventCond qd todayTs now eventless_stops quests invasions lures r &&
  (if b.present = false then
    true
  else if 0 < timestamp then
    ltOpt timestamp r.last_updated && inBox r.latitude r.longitude b
  else if ob.present then
    inBox r.latitude r.longitude b && !(inBox r.latitude r.longitude ob)
  else
    inBox r.latitude r.longitude b)

/-- A client-facing pokestop record, after the per-row projection loop. -/
structure PokestopRecord where
  pokestop_id : String
  latitude : ℚ
  longitude : ℚ
  last_updated : Option Int
  incident_grunt_type : Option Int
  incident_expiration : Option Int
  active_fort_modifier : Option Int
  lure_expiration : Option Int
  quest : Option TrsQuest
deriving DecidableEq

/-- The per-row body of the result loop of `Pokestop.get_pokestops`:
attach the quest partner, then null out each sub-feature pair when its own
stored expiration is non-null and either already strictly past `now` or its
category was opted out (`expiration < now or not invasions`, resp. `lures`). -/
def projectPokestop (r : Pokestop) (q : Option TrsQuest) (now : Int)
    (invasions lures : Bool) : PokestopRecord :=
  let rec0 : PokestopRecord :=
    { pokestop_id := r.pokestop_id, latitude := r.latitude,
      longitude := r.longitude, last_updated := r.last_updated,
      incident_grunt_type := r.incident_grunt_type,
      incident_expiration := r.incident_expiration,
      active_fort_modifier := r.active_fort_modifier,
      lure_expiration := r.lure_expiration, quest := q }
  let rec1 : PokestopRecord :=
    match r.incident_expiration with
    | some e =>
      if e < now ∨ invasions = false then
        { rec0 with incident_grunt_type := none, incident_expiration := none }
      else rec0
    | none => rec0
  match r.lure_expiration with
  | some e =>
    if e < now ∨ lures = false then
      { rec1 with active_fort_modifier := none, lure_expiration := none }
    else rec1
  | none => rec1

/-- `Pokestop.get_pokestops`: filter, then project each row
(with its quest partner when the quest join is enabled). -/
def Pokestop.get_pokestops (d : List Pokestop) (qd : List TrsQuest)
    (todayTs : Int) (b ob : QueryBounds) (timestamp now : Int)
    (eventless_stops quests invasions lures : Bool) : List PokestopRecord :=
  (d.filter
    (Pokestop.passes qd todayTs b ob timestamp now eventless_stops quests
      invasions lures)).map
    (fun r =>
      projectPokestop r
        (if quests then questFor qd todayTs r.pokestop_id else none)
        now invasions lures)

/-- Microseconds in one hour. -/
def MICROS_PER_HOUR : Nat := 3600 * 1000000

/-- Microseconds in one (decimal) minute times thirty:
`timedelta(minutes=30)`. -/
def MICROS_PER_HALF_HOUR : Nat := 30 * 60 * 1000000

/-- `s.split(":")` on the character list of a Python string. -/
def splitColon : List Char → List (List Char)
  | [] => [[]]
  | c :: rest =>
    match splitColon rest with
    | h :: t => if c = ':' then [] :: h :: t else (c :: h) :: t
    | [] => if c = ':' then [[], []] else [[c]]

/-- Python `int(...)` on a piece of the split string, for the canonical
decimal digit strings of an `"MM:SS"` fragment; `none` stands for the
`ValueError` that `int` raises on a non-numeric piece. -/
def decDigits : List Char → Option Nat
  | [] => none
  | l =>
    if l.all Char.isDigit then
      some (l.foldl (fun n c => 10 * n + (c.toNat - 48)) 0)
    else none

/-- `end_time_minutes = int(split[0])`, `end_time_seconds = int(split[1])`:
the first two pieces of the colon-split fragment, parsed (any further
pieces are ignored by the code); `none` when `int` or the indexing
would raise. -/
def parseEndMinSec (s : String) : Option (Nat × Nat) :=
  match (splitColon s.data).map decDigits with
  | some mm :: some ss :: _ => some (mm, ss)
  | _ => none

/-- `datetime.today().replace(minute=mm, second=ss, microsecond=0)`:
keep the date and hour of the local instant `now` (microseconds), set
minute `mm` and second `ss`. -/
def despawnCandidate (now mm ss : Nat) : Nat :=
  now / MICROS_PER_HOUR * MICROS_PER_HOUR + (mm * 60 + ss) * 1000000

/-- The local despawn instant: the candidate, bumped by one hour when it is
not strictly in the future (`if despawn_time <= datetime.today():
despawn_time += timedelta(hours=1)`). -/
def despawnLocal (now mm ss : Nat) : Nat :=
  if despawnCandidate now mm ss ≤ now then
    despawnCandidate now mm ss + MICROS_PER_HOUR
  else
    despawnCandidate now mm ss

/-- The columns of the `TrsSpawn` table that `TrsSpawn.get_spawnpoints`
reads (`calc_endminsec` is selected under the label `end_time`). -/
structure TrsSpawn where
  spawnpoint_id : String
  latitude : ℚ
  longitude : ℚ
  spawndef : Int
  last_scanned : Option Int
  last_non_scanned : Option Int
  end_time : Option String
deriving DecidableEq

/-- One emitted spawn-point record. A `none` in `despawn_time`/`spawn_time`
is a record emitted without those keys. -/
structure SpawnpointRecord where
  spawnpoint_id : String
  latitude : ℚ
  longitude : ℚ
  spawndef : Int
  last_scanned : Option Int
  last_non_scanned : Option Int
  despawn_time : Option Int
  spawn_time : Option Int
deriving DecidableEq

/-- The row predicate built by `TrsSpawn.get_spawnpoints` (the delta branch
keeps rows with `last_scanned > t` OR `last_non_scanned > t`). -/
def TrsSpawn.passes (b ob : QueryBounds) (timestamp : Int)
    (r : TrsSpawn) : Bool :=
  if b.present = false then
    true
  else if 0 < timestamp then
    (ltOpt timestamp r.last_scanned || ltOpt timestamp r.last_non_scanned) &&
      inBox r.latitude r.longitude b
  else if ob.present then
    inBox r.latitude r.longitude b && !(inBox r.latitude r.longitude ob)
  else
    inBox r.latitude r.longitude b

/-- The per-row body of the result loop of `TrsSpawn.get_spawnpoints`.
`now` is the local wall-clock instant (`datetime.today()`, microseconds),
`utc_offset` the value `datetime.fromtimestamp(ts) -
datetime.utcfromtimestamp(ts)`. `Except.error` stands for the exception
Python raises on a malformed (non-`None`) `end_time`; note that the
`last_scanned` offset adjustment sits inside the `end_time is not None`
branch in the source. -/
def processSpawnRow (now : Nat) (utc_offset : Int) (sp : TrsSpawn) :
    Except String SpawnpointRecord :=
  let lns := sp.last_non_scanned.map (fun v => v - utc_offset)
  match sp.end_time with
  | none =>
    .ok { spawnpoint_id := sp.spawnpoint_id, latitude := sp.latitude,
          longitude := sp.longitude, spawndef := sp.spawndef,
          last_scanned := sp.last_scanned, last_non_scanned := lns,
          despawn_time := none, spawn_time := none }
  | some s =>
    match parseEndMinSec s with
    | none => .error "invalid literal for int with base 10"
    | some (mm, ss) =>
      if 60 ≤ mm ∨ 60 ≤ ss then .error "minute or second must be in 0..59"
      else
        let d : Int := (despawnLocal now mm ss : Int) - utc_offset
        .ok { spawnpoint_id := sp.spawnpoint_id, latitude := sp.latitude,
              longitude := sp.longitude, spawndef := sp.spawndef,
              last_scanned := sp.last_scanned.map (fun v => v - utc_offset),
              last_non_scanned := lns,
              despawn_time := some d,
              spawn_time := some (if sp.spawndef = 15 then
                  d - (MICROS_PER_HOUR : Int)
                else
                  d - (MICROS_PER_HALF_HOUR : Int)) }

/-- `TrsSpawn.get_spawnpoints`: filter, then run the result loop over every
row; a raised exception aborts the whole call. -/
def TrsSpawn.get_spawnpoints (d : List TrsSpawn) (b ob : QueryBounds)
    (timestamp : Int) (now : Nat) (utc_offset : Int) :
    Except String (List SpawnpointRecord) :=
  (d.filter (TrsSpawn.passes b ob timestamp)).mapM (processSpawnRow now utc_offset)

lemma noBounds_present : noBounds.present = false := rfl

lemma pokemon_passes_fallback (b ob : QueryBounds) (hb : b.present = true)
    (hob : ob.present = false) (now : Int) (eids ids : List Nat) (p : Pokemon) :
    Pokemon.passes b ob 0 now eids ids p =
      (idCond eids ids p.pokemon_id &&
        (decide (now < p.disappear_time) && inBox p.latitude p.longitude b)) := by
  simp [Pokemon.passes, hb, hob]

lemma pokemon_passes_panned (b ob : QueryBounds) (hb : b.present = true)
    (hob : ob.present = true) (now : Int) (eids ids : List Nat) (p : Pokemon) :
    Pokemon.passes b ob 0 now eids ids p =
      (idCond eids ids p.pokemon_id &&
        (decide (now < p.disappear_time) && inBox p.latitude p.longitude b &&
          !(inBox p.latitude p.longitude ob))) := by
  simp [Pokemon.passes, hb, hob]

lemma scanned_passes_fallback (b ob : QueryBounds) (hb : b.present = true)
    (hob : ob.present = false) (now : Int) (r : ScannedLocation) :
    ScannedLocation.passes b ob 0 now r =
      (leOpt (now - 15 * 60 * 1000) r.last_modified &&
        inBox r.latitude r.longitude b) := by
  simp [ScannedLocation.passes, hb, hob]

lemma scanned_passes_panned (b ob : QueryBounds) (hb : b.present = true)
    (hob : ob.present = true) (now : Int) (r : ScannedLocation) :
    ScannedLocation.passes b ob 0 now r =
      (leOpt (now - 15 * 60 * 1000) r.last_modified &&
        inBox r.latitude r.longitude b && !(inBox r.latitude r.longitude ob)) := by
  simp [ScannedLocation.passes, hb, hob]

lemma mem_key_filter {α : Type} (key : α → Nat) (g : α → Bool) (d : List α)
    (hnd : (d.map key).Nodup) (a : α) (ha : a ∈ d) :
    key a ∈ (d.filter g).map key ↔ g a = true := by
  constructor
  · intro hmem
    rcases List.mem_map.1 hmem with ⟨q, hq, hkey⟩
    rcases List.mem_filter.1 hq with ⟨hqd, hgq⟩
    have hqa : q = a := List.inj_on_of_nodup_map hnd hqd ha hkey
    rwa [hqa] at hgq
  · intro hga
    exact List.mem_map.2 ⟨a, List.mem_filter.2 ⟨ha, hga⟩, rfl⟩

/-- Set difference of the id sets of two filtered queries over the same
dataset is the query of the pointwise differenced predicate, as long as the
dataset's ids are unique (they are primary keys). -/
lemma diff_ids {α : Type} (key : α → Nat) (f g h : α → Bool) (d : List α)
    (hnd : (d.map key).Nodup)
    (hfgh : ∀ p, (f p && !(g p)) = h p) :
    ((d.filter f).map key).filter
        (fun i => !(decide (i ∈ (d.filter g).map key)))
      = (d.filter h).map key := by
  rw [List.filter_map]
  refine congrArg (List.map key) ?_
  rw [List.filter_filter]
  refine List.filter_congr ?_
  intro a ha
  have hdec : decide (key a ∈ (d.filter g).map key) = g a := by
    rcases hg : g a with _ | _
    · exact decide_eq_false (fun hmem =>
        (Bool.false_ne_true (hg ▸ (mem_key_filter key g d hnd a ha).1 hmem)))
    · exact decide_eq_true ((mem_key_filter key g d hnd a ha).2 hg)
  have := hfgh a
  simp only [Function.comp] at *
  rw [hdec]
  rw [← this]
  rcases f a <;> rcases g a <;> rfl

lemma truthy_none : truthy none = false := rfl

lemma truthy_some_zero : truthy (some 0) = false := by decide

/-- A current-box argument vector with a coordinate that is `None` or
exactly `0` (equator / prime meridian). -/
def hasFalsyCoord (b : QueryBounds) : Prop :=
  b.swLat = none ∨ b.swLat = some 0 ∨ b.swLng = none ∨ b.swLng = some 0 ∨
  b.neLat = none ∨ b.neLat = some 0 ∨ b.neLng = none ∨ b.neLng = some 0

lemma present_false_of_falsy (b : QueryBounds) (h : hasFalsyCoord b) :
    b.present = false := by
  rcases h with h | h | h | h | h | h | h | h <;>
    simp [QueryBounds.present, h, truthy_none, truthy_some_zero]

/-- The predicate of `Pokemon.get_active` is the id filter conjoined with
the condition of the branch `selectMode` picks. -/
lemma passes_eq_modeCond (b ob : QueryBounds) (ts now : Int)
    (eids ids : List Nat) (p : Pokemon) :
    Pokemon.passes b ob ts now eids ids p =
      (idCond eids ids p.pokemon_id &&
        modeCond (selectMode b ob ts) b ob ts now p) := by
  rcases hb : b.present <;> rcases hob : ob.present <;>
    rcases le_or_lt ts 0 with ht | ht <;>
    simp [Pokemon.passes, selectMode, modeCond, hb, hob, ht, not_lt.mpr ht]

lemma mapM_ok {α β : Type} (f : α → Except String β) (g : α → β) (l : List α)
    (h : ∀ a ∈ l, f a = .ok (g a)) : l.mapM f = .ok (l.map g) := by
  induction l with
  | nil => rfl
  | cons a t ih =>
    rw [List.map_cons, List.mapM_cons, h a (by simp)]
    rw [ih (fun x hx => h x (by simp [hx]))]
    rfl

/-- C1: for a fixed dataset evaluated at one instant `now`, the id set of a
fallback-mode query for box `B` minus the id set of a fallback-mode query
for box `Bprev` equals the id set of a panned-mode query with current box
`B` and previous box `Bprev`, both for the sighting query
(`Pokemon.get_active`, ids are `encounter_id`) and for the scan-cell query
(`ScannedLocation.get_recent`, ids are `cellid`); the datasets carry
primary-key-unique ids. -/
theorem claim1_differential_viewport (dp : List Pokemon)
    (ds : List ScannedLocation) (b ob : QueryBounds) (now : Int)
    (eids ids : List Nat) (hb : b.present = true) (hob : ob.present = true)
    (hp : (dp.map (·.encounter_id)).Nodup)
    (hs : (ds.map (·.cellid)).Nodup) :
    (Pokemon.activeIds dp b noBounds 0 now eids ids).filter
        (fun i => !(decide (i ∈ Pokemon.activeIds dp ob noBounds 0 now eids ids)))
      = Pokemon.activeIds dp b ob 0 now eids ids ∧
    (ScannedLocation.recentIds ds b noBounds 0 now).filter
        (fun i => !(decide (i ∈ ScannedLocation.recentIds ds ob noBounds 0 now)))
      = ScannedLocation.recentIds ds b ob 0 now := by
  constructor
  · unfold Pokemon.activeIds Pokemon.get_active
    refine diff_ids _ _ _ _ dp hp ?_
    intro p
    rw [pokemon_passes_fallback b noBounds hb noBounds_present,
        pokemon_passes_fallback ob noBounds hob noBounds_present,
        pokemon_passes_panned b ob hb hob]
    generalize idCond eids ids p.pokemon_id = c
    generalize decide (now < p.disappear_time) = a
    generalize inBox p.latitude p.longitude b = x
    generalize inBox p.latitude p.longitude ob = y
    revert c a x y
    decide
  · unfold ScannedLocation.recentIds ScannedLocation.get_recent
    refine diff_ids _ _ _ _ ds hs ?_
    intro r
    rw [scanned_passes_fallback b noBounds hb noBounds_present,
        scanned_passes_fallback ob noBounds hob noBounds_present,
        scanned_passes_panned b ob hb hob]
    generalize leOpt (now - 15 * 60 * 1000) r.last_modified = a
    generalize inBox r.latitude r.longitude b = x
    generalize inBox r.latitude r.longitude ob = y
    revert a x y
    decide

theorem claim1_witness :
    (Pokemon.activeIds [⟨1, 3, 2, 2, 100, none⟩, ⟨2, 3, 5, 5, 100, none⟩]
        ⟨some 1, some 1, some 9, some 9⟩ noBounds 0 0 [] []).filter
        (fun i => !(decide (i ∈ Pokemon.activeIds
          [⟨1, 3, 2, 2, 100, none⟩, ⟨2, 3, 5, 5, 100, none⟩]
          ⟨some 4, some 4, some 9, some 9⟩ noBounds 0 0 [] [])))
      = Pokemon.activeIds [⟨1, 3, 2, 2, 100, none⟩, ⟨2, 3, 5, 5, 100, none⟩]
          ⟨some 1, some 1, some 9, some 9⟩ ⟨some 4, some 4, some 9, some 9⟩
          0 0 [] [] :=
  (claim1_differential_viewport
    [⟨1, 3, 2, 2, 100, none⟩, ⟨2, 3, 5, 5, 100, none⟩] []
    ⟨some 1, some 1, some 9, some 9⟩ ⟨some 4, some 4, some 9, some 9⟩ 0 [] []
    (by decide) (by decide) (by decide) (by decide)).1

/-- C2: for a well-formed `"MM:SS"` fragment, the derived despawn instant
keeps the date and hour of `now` (or the next hour), has minute `MM`,
second `SS` and microsecond `0`; the hour is bumped exactly when the
candidate is not strictly after `now`; and the emitted `spawn_time` is the
emitted `despawn_time` minus one hour when `spawndef = 15`, else minus
thirty minutes. -/
theorem claim2_despawn_inference (s : String) (mm ss now : Nat)
    (utc_offset : Int) (sp : TrsSpawn)
    (hparse : parseEndMinSec s = some (mm, ss))
    (hmm : mm ≤ 59) (hss : ss ≤ 59) (hsp : sp.end_time = some s) :
    despawnLocal now mm ss % 1000000 = 0 ∧
    despawnLocal now mm ss / 1000000 % 60 = ss ∧
    despawnLocal now mm ss / 60000000 % 60 = mm ∧
    (despawnLocal now mm ss / MICROS_PER_HOUR = now / MICROS_PER_HOUR ∨
      despawnLocal now mm ss / MICROS_PER_HOUR = now / MICROS_PER_HOUR + 1) ∧
    despawnCandidate now mm ss / MICROS_PER_HOUR = now / MICROS_PER_HOUR ∧
    (despawnCandidate now mm ss ≤ now →
      despawnLocal now mm ss = despawnCandidate now mm ss + MICROS_PER_HOUR) ∧
    (now < despawnCandidate now mm ss →
      despawnLocal now mm ss = despawnCandidate now mm ss) ∧
    processSpawnRow now utc_offset sp = .ok
      { spawnpoint_id := sp.spawnpoint_id, latitude := sp.latitude,
        longitude := sp.longitude, spawndef := sp.spawndef,
        last_scanned := sp.last_scanned.map (fun v => v - utc_offset),
        last_non_scanned := sp.last_non_scanned.map (fun v => v - utc_offset),
        despawn_time := some ((despawnLocal now mm ss : Int) - utc_offset),
        spawn_time := some (if sp.spawndef = 15 then
            ((despawnLocal now mm ss : Int) - utc_offset) - (MICROS_PER_HOUR : Int)
          else
            ((despawnLocal now mm ss : Int) - utc_offset) -
              (MICROS_PER_HALF_HOUR : Int)) } := by
  refine ⟨?_, ?_, ?_, ?_, ?_, ?_, ?_, ?_⟩
  · simp only [despawnLocal, despawnCandidate, MICROS_PER_HOUR]
    split <;> omega
  · simp only [despawnLocal, despawnCandidate, MICROS_PER_HOUR]
    split <;> omega
  · simp only [despawnLocal, despawnCandidate, MICROS_PER_HOUR]
    split <;> omega
  · simp only [despawnLocal, despawnCandidate, MICROS_PER_HOUR]
    split <;> omega
  · simp only [despawnCandidate, MICROS_PER_HOUR]
    omega
  · intro h
    simp only [despawnLocal, if_pos h]
  · intro h
    simp only [despawnLocal, if_neg (by omega : ¬despawnCandidate now mm ss ≤ now)]
  · simp only [processSpawnRow, hsp, hparse]
    rw [if_neg (by omega : ¬(60 ≤ mm ∨ 60 ≤ ss))]

theorem claim2_witness :
    processSpawnRow 51000000000 0 ⟨"sp1", 1, 1, 240, none, none, some "05:30"⟩
      = .ok { spawnpoint_id := "sp1", latitude := 1, longitude := 1,
              spawndef := 240, last_scanned := none, last_non_scanned := none,
              despawn_time := some ((despawnLocal 51000000000 5 30 : Int) - 0),
              spawn_time := some (if (240 : Int) = 15 then
                  ((despawnLocal 51000000000 5 30 : Int) - 0) - (MICROS_PER_HOUR : Int)
                else
                  ((despawnLocal 51000000000 5 30 : Int) - 0) -
                    (MICROS_PER_HALF_HOUR : Int)) } :=
  (claim2_despawn_inference "05:30" 5 30 51000000000 0
    ⟨"sp1", 1, 1, 240, none, none, some "05:30"⟩
    (by decide) (by decide) (by decide) rfl).2.2.2.2.2.2.2

/-- C3: under the same inputs the derived despawn instant is stable, and it
always lies strictly after `now` and at most one hour after `now`
(before the UTC-offset re-expression). -/
theorem claim3_despawn_bounds (s : String) (mm1 ss1 mm2 ss2 now : Nat)
    (h1 : parseEndMinSec s = some (mm1, ss1))
    (h2 : parseEndMinSec s = some (mm2, ss2))
    (hmm : mm1 ≤ 59) (hss : ss1 ≤ 59) :
    despawnLocal now mm1 ss1 = despawnLocal now mm2 ss2 ∧
    now < despawnLocal now mm1 ss1 ∧
    despawnLocal now mm1 ss1 ≤ now + MICROS_PER_HOUR := by
  have h12 := h1.symm.trans h2
  simp only [Option.some.injEq, Prod.mk.injEq] at h12
  refine ⟨by rw [h12.1, h12.2], ?_, ?_⟩
  · simp only [despawnLocal, despawnCandidate, MICROS_PER_HOUR]
    split <;> omega
  · simp only [despawnLocal, despawnCandidate, MICROS_PER_HOUR]
    split <;> omega

theorem claim3_witness :
    51000000000 < despawnLocal 51000000000 5 30 ∧
    despawnLocal 51000000000 5 30 ≤ 51000000000 + MICROS_PER_HOUR :=
  ⟨(claim3_despawn_bounds "05:30" 5 30 5 30 51000000000
      (by decide) (by decide) (by decide) (by decide)).2.1,
   (claim3_despawn_bounds "05:30" 5 30 5 30 51000000000
      (by decide) (by decide) (by decide) (by decide)).2.2⟩

/-- C4: mode selection is a total function of (box present, previous box
present, timestamp positive): each of the four modes is selected exactly on
its characterizing combination, tested in priority order; in particular a
positive timestamp together with a present previous box selects the delta
(timestamp) mode and never the panned mode; and the predicate built by
`Pokemon.get_active` is exactly the id filter conjoined with the selected
mode's condition. -/
theorem claim4_mode_selection (b ob : QueryBounds) (ts : Int) :
    (selectMode b ob ts = .noBox ↔ b.present = false) ∧
    (selectMode b ob ts = .delta ↔ b.present = true ∧ 0 < ts) ∧
    (selectMode b ob ts = .panned ↔
      b.present = true ∧ ts ≤ 0 ∧ ob.present = true) ∧
    (selectMode b ob ts = .fallback ↔
      b.present = true ∧ ts ≤ 0 ∧ ob.present = false) ∧
    (b.present = true → 0 < ts → ob.present = true →
      selectMode b ob ts = .delta ∧ selectMode b ob ts ≠ .panned) ∧
    (∀ (now : Int) (eids ids : List Nat) (p : Pokemon),
      Pokemon.passes b ob ts now eids ids p =
        (idCond eids ids p.pokemon_id &&
          modeCond (selectMode b ob ts) b ob ts now p)) := by
  refine ⟨?_, ?_, ?_, ?_, ?_, fun now eids ids p => passes_eq_modeCond b ob ts now eids ids p⟩ <;>
    (unfold selectMode; split_ifs <;> simp_all)

theorem claim4_witness :
    selectMode ⟨some 1, some 1, some 9, some 9⟩
      ⟨some 2, some 2, some 8, some 8⟩ 5 = .delta ∧
    selectMode ⟨some 1, some 1, some 9, some 9⟩
      ⟨some 2, some 2, some 8, some 8⟩ 5 ≠ .panned :=
  (claim4_mode_selection ⟨some 1, some 1, some 9, some 9⟩
    ⟨some 2, some 2, some 8, some 8⟩ 5).2.2.2.2.1
    (by decide) (by decide) (by decide)

/-- C5 fails on the code: a stored incident whose expiration equals the
evaluation instant (`incident_expiration <= now` as the claim puts it, with
equality) is NOT nulled out, because the code tests `expiration < now`
strictly; here the stored grunt type 5 and the expiration survive into the
projected record. -/
theorem claim5_counterexample :
    (projectPokestop ⟨"s1", 2, 2, some 0, some 5, some 100, none, none⟩
        none 100 true true).incident_grunt_type = some 5 ∧
    (projectPokestop ⟨"s1", 2, 2, some 0, some 5, some 100, none, none⟩
        none 100 true true).incident_expiration = some 100 := by
  decide

/-- C5 amended: in every record emitted by `Pokestop.get_pokestops`, in
every sync mode, a sub-feature pair is nulled whenever its own stored
expiration is non-null and is strictly before the evaluation instant
(`expiration < now`) or its category was opted out; the two sub-features
are evaluated independently, and every emitted record is the projection of
a stored row. -/
theorem claim5_amended (r : Pokestop) (q : Option TrsQuest) (now : Int)
    (invasions lures : Bool) :
    (∀ e, r.incident_expiration = some e → (e < now ∨ invasions = false) →
      (projectPokestop r q now invasions lures).incident_grunt_type = none ∧
      (projectPokestop r q now invasions lures).incident_expiration = none) ∧
    (∀ e, r.lure_expiration = some e → (e < now ∨ lures = false) →
      (projectPokestop r q now invasions lures).active_fort_modifier = none ∧
      (projectPokestop r q now invasions lures).lure_expiration = none) ∧
    (∀ (d : List Pokestop) (qd : List TrsQuest) (todayTs : Int)
        (b ob : QueryBounds) (ts : Int) (ev qs : Bool)
        (rec : PokestopRecord),
      rec ∈ Pokestop.get_pokestops d qd todayTs b ob ts now ev qs
        invasions lures →
      ∃ r2, r2 ∈ d ∧ rec = projectPokestop r2
        (if qs then questFor qd todayTs r2.pokestop_id else none)
        now invasions lures) := by
  refine ⟨?_, ?_, ?_⟩
  · intro e he hcond
    rcases hl : r.lure_expiration with _ | e2
    · simp [projectPokestop, he, hl, if_pos hcond]
    · simp only [projectPokestop, he, hl, if_pos hcond]
      split <;> exact ⟨rfl, rfl⟩
  · intro e he hcond
    rcases hi : r.incident_expiration with _ | e2 <;>
      simp [projectPokestop, he, hi, if_pos hcond]
  · intro d qd todayTs b ob ts ev qs rec hrec
    unfold Pokestop.get_pokestops at hrec
    rcases List.mem_map.1 hrec with ⟨r2, hr2, heq⟩
    exact ⟨r2, (List.mem_filter.1 hr2).1, heq.symm⟩

theorem claim5_witness :
    (projectPokestop ⟨"s1", 2, 2, some 0, some 5, some 99, none, none⟩
        none 100 true true).incident_grunt_type = none ∧
    (projectPokestop ⟨"s1", 2, 2, some 0, some 5, some 99, none, none⟩
        none 100 true true).incident_expiration = none :=
  (claim5_amended ⟨"s1", 2, 2, some 0, some 5, some 99, none, none⟩
    none 100 true true).1 99 rfl (Or.inl (by decide))

/-- C6 fails on the code: with both sets non-empty (`eids = [2]`,
`ids = [1]`) the exclusion set is the one applied — the query returns a
matching sighting whose `pokemon_id` (3) is NOT in the inclusion set,
so the result is not "exactly the entities whose id is in the inclusion
set". -/
theorem claim6_counterexample :
    Pokemon.get_active [⟨1, 3, 2, 2, 100, none⟩]
        ⟨some 1, some 1, some 9, some 9⟩ noBounds 0 0 [2] [1]
      = [⟨1, 3, 2, 2, 100, none⟩] ∧
    (3 ∉ [1]) ∧ ([2] ≠ ([] : List Nat)) ∧ ([1] ≠ ([] : List Nat)) := by
  decide

/-- C6 amended: the exclusion set takes priority: whenever `eids` is
non-empty (in particular when both sets are supplied), the result is
exactly the rows passing the selected mode's geographic/liveness condition
whose `pokemon_id` is NOT in the exclusion set; the inclusion set is
ignored. -/
theorem claim6_amended (d : List Pokemon) (b ob : QueryBounds)
    (ts now : Int) (eids ids : List Nat) (he : eids ≠ []) :
    Pokemon.get_active d b ob ts now eids ids =
      d.filter (fun p => !(eids.contains p.pokemon_id) &&
        modeCond (selectMode b ob ts) b ob ts now p) := by
  unfold Pokemon.get_active
  refine List.filter_congr ?_
  intro p _
  rw [passes_eq_modeCond]
  simp [idCond, he]

theorem claim6_witness :
    Pokemon.get_active [⟨1, 3, 2, 2, 100, none⟩]
        ⟨some 1, some 1, some 9, some 9⟩ noBounds 0 0 [2] [1]
      = List.filter (fun p => !([2].contains p.pokemon_id) &&
          modeCond (selectMode ⟨some 1, some 1, some 9, some 9⟩ noBounds 0)
            ⟨some 1, some 1, some 9, some 9⟩ noBounds 0 0 p)
          [⟨1, 3, 2, 2, 100, none⟩] :=
  claim6_amended [⟨1, 3, 2, 2, 100, none⟩] ⟨some 1, some 1, some 9, some 9⟩
    noBounds 0 0 [2] [1] (by decide)

/-- C7 fails on the code: in the panned mode (box and previous box
supplied, no timestamp) a scan cell inside the new box and outside the old
one is nonetheless dropped because its `last_modified` is older than
15 minutes — the liveness window is applied outside the fallback mode. -/
theorem claim7_counterexample :
    selectMode ⟨some 1, some 1, some 9, some 9⟩
      ⟨some 4, some 4, some 9, some 9⟩ 0 = .panned ∧
    inBox 2 2 ⟨some 1, some 1, some 9, some 9⟩ = true ∧
    inBox 2 2 ⟨some 4, some 4, some 9, some 9⟩ = false ∧
    leOpt (10000000 - 15 * 60 * 1000) (some 0) = false ∧
    ScannedLocation.passes ⟨some 1, some 1, some 9, some 9⟩
      ⟨some 4, some 4, some 9, some 9⟩ 0 10000000 ⟨7, 2, 2, some 0⟩ = false := by
  decide

/-- C7 amended: the fixed 15-minute liveness window
(`last_modified >= now - 15 minutes`) of the scan-cell query is applied in
the no-box, panned and fallback modes; the delta (timestamp) mode is the
only one that replaces it with the `last_modified >= timestamp`
comparison. -/
theorem claim7_amended (b ob : QueryBounds) (ts now : Int)
    (r : ScannedLocation) :
    (b.present = false →
      ScannedLocation.passes b ob ts now r =
        leOpt (now - 15 * 60 * 1000) r.last_modified) ∧
    (b.present = true → 0 < ts →
      ScannedLocation.passes b ob ts now r =
        (leOpt ts r.last_modified && inBox r.latitude r.longitude b)) ∧
    (b.present = true → ts ≤ 0 → ob.present = true →
      ScannedLocation.passes b ob ts now r =
        (leOpt (now - 15 * 60 * 1000) r.last_modified &&
          inBox r.latitude r.longitude b &&
          !(inBox r.latitude r.longitude ob))) ∧
    (b.present = true → ts ≤ 0 → ob.present = false →
      ScannedLocation.passes b ob ts now r =
        (leOpt (now - 15 * 60 * 1000) r.last_modified &&
          inBox r.latitude r.longitude b)) := by
  refine ⟨?_, ?_, ?_, ?_⟩
  · intro h1
    simp [ScannedLocation.passes, h1]
  · intro h1 h2
    simp [ScannedLocation.passes, h1, h2]
  · intro h1 h2 h3
    simp [ScannedLocation.passes, h1, h3, not_lt.mpr h2]
  · intro h1 h2 h3
    simp [ScannedLocation.passes, h1, h3, not_lt.mpr h2]

theorem claim7_witness :
    ScannedLocation.passes ⟨some 1, some 1, some 9, some 9⟩
        ⟨some 4, some 4, some 9, some 9⟩ 0 10000000 ⟨8, 5, 5, some 9999999⟩ =
      (leOpt (10000000 - 15 * 60 * 1000) (some 9999999) &&
        inBox 5 5 ⟨some 1, some 1, some 9, some 9⟩ &&
        !(inBox 5 5 ⟨some 4, some 4, some 9, some 9⟩)) :=
  (claim7_amended ⟨some 1, some 1, some 9, some 9⟩
    ⟨some 4, some 4, some 9, some 9⟩ 0 10000000 ⟨8, 5, 5, some 9999999⟩).2.2.1
    (by decide) (by decide) (by decide)

/-- C8: in every geographic sync mode the weather query tests containment
against the bounds expanded by 0.15 degrees latitude and 0.4 degrees
longitude, on the current and on the previous box alike; a cell whose
stored point lies within the tolerance of the requested box is returned by
a fallback fetch, and one lying strictly beyond the tolerance on some axis
is returned by no mode. -/
theorem claim8_weather_tolerance (b ob : QueryBounds) (ts : Int) (w : Weather)
    (sw sw2 ne ne2 : ℚ) (hb : b.present = true)
    (hsw : b.swLat = some sw) (hsw2 : b.swLng = some sw2)
    (hne : b.neLat = some ne) (hne2 : b.neLng = some ne2) :
    (0 < ts → Weather.passes b ob ts w =
      (ltOpt ts w.last_updated && inBox w.latitude w.longitude (expand b))) ∧
    (ts ≤ 0 → ob.present = true → Weather.passes b ob ts w =
      (inBox w.latitude w.longitude (expand b) &&
        !(inBox w.latitude w.longitude (expand ob)))) ∧
    (ts ≤ 0 → ob.present = false → Weather.passes b ob ts w =
      inBox w.latitude w.longitude (expand b)) ∧
    (ts ≤ 0 → ob.present = false →
      sw - lat_delta ≤ w.latitude → w.latitude ≤ ne + lat_delta →
      sw2 - lng_delta ≤ w.longitude → w.longitude ≤ ne2 + lng_delta →
      Weather.passes b ob ts w = true) ∧
    ((w.latitude < sw - lat_delta ∨ ne + lat_delta < w.latitude ∨
      w.longitude < sw2 - lng_delta ∨ ne2 + lng_delta < w.longitude) →
      Weather.passes b ob ts w = false) := by
  refine ⟨?_, ?_, ?_, ?_, ?_⟩
  · intro h1
    simp [Weather.passes, hb, h1]
  · intro h1 h2
    simp [Weather.passes, hb, h2, not_lt.mpr h1]
  · intro h1 h2
    simp [Weather.passes, hb, h2, not_lt.mpr h1]
  · intro h1 h2 h3 h4 h5 h6
    have hbox : inBox w.latitude w.longitude (expand b) = true := by
      simp only [inBox, expand, hsw, hsw2, hne, hne2, Option.map_some',
        Bool.and_eq_true, decide_eq_true_eq]
      exact ⟨⟨⟨h3, h5⟩, h4⟩, h6⟩
    simp [Weather.passes, hb, h2, hbox, not_lt.mpr h1]
  · intro hcase
    have hbox : inBox w.latitude w.longitude (expand b) = false := by
      simp only [inBox, expand, hsw, hsw2, hne, hne2, Option.map_some']
      rcases hcase with h | h | h | h <;> simp [not_le.mpr h]
    simp only [Weather.passes, hb]
    split_ifs <;> simp_all [hbox]

theorem claim8_witness :
    Weather.passes ⟨some 1, some 1, some 9, some 9⟩ noBounds 0
      ⟨"cell", 91/10, 1, none⟩ = true :=
  (claim8_weather_tolerance ⟨some 1, some 1, some 9, some 9⟩ noBounds 0
    ⟨"cell", 91/10, 1, none⟩ 1 1 9 9 (by decide) rfl rfl rfl rfl).2.2.2.1
    (by decide) rfl (by norm_num [lat_delta]) (by norm_num [lat_delta])
    (by norm_num [lng_delta]) (by norm_num [lng_delta])

/-- C9 fails on the code in its last clause: field absence is NOT the only
effect of a missing fragment. Two stored rows differing only in
`end_time` (absent vs `"05:30"`) also differ in their emitted
`last_scanned`: the UTC-offset adjustment of `last_scanned` sits inside
the `end_time is not None` branch, so the fragment-less row keeps the raw
stored value while the other row's is shifted. (The row IS still emitted
with no error and without the derived fields.) -/
theorem claim9_counterexample :
    processSpawnRow 0 3600000000
        ⟨"sp1", 1, 1, 240, some 5000000, none, none⟩ =
      .ok ⟨"sp1", 1, 1, 240, some 5000000, none, none, none⟩ ∧
    processSpawnRow 0 3600000000
        ⟨"sp1", 1, 1, 240, some 5000000, none, some "05:30"⟩ =
      .ok ⟨"sp1", 1, 1, 240, some (-3595000000), none,
           some (-3270000000), some (-5070000000)⟩ ∧
    some (5000000 : Int) ≠ some (-3595000000 : Int) := by
  refine ⟨rfl, ?_, by decide⟩
  rfl

/-- C9 amended: a spawn-point row with an absent `endMinSec` fragment is
still emitted, with no error and without the `despawn_time` and
`spawn_time` fields; every other emitted field is what normal processing
yields EXCEPT that the UTC-offset adjustment of `last_scanned` is skipped
(it is performed only together with the despawn derivation), so the raw
stored `last_scanned` is emitted. A whole query over fragment-less rows
never errors. -/
theorem claim9_amended (now : Nat) (utc_offset : Int) (sp : TrsSpawn)
    (h : sp.end_time = none) :
    processSpawnRow now utc_offset sp = .ok
      { spawnpoint_id := sp.spawnpoint_id, latitude := sp.latitude,
        longitude := sp.longitude, spawndef := sp.spawndef,
        last_scanned := sp.last_scanned,
        last_non_scanned := sp.last_non_scanned.map (fun v => v - utc_offset),
        despawn_time := none, spawn_time := none } ∧
    (∀ (d : List TrsSpawn) (b ob : QueryBounds) (ts : Int),
      (∀ r ∈ d, r.end_time = none) →
      TrsSpawn.get_spawnpoints d b ob ts now utc_offset = .ok
        ((d.filter (TrsSpawn.passes b ob ts)).map (fun r =>
          { spawnpoint_id := r.spawnpoint_id, latitude := r.latitude,
            longitude := r.longitude, spawndef := r.spawndef,
            last_scanned := r.last_scanned,
            last_non_scanned := r.last_non_scanned.map
              (fun v => v - utc_offset),
            despawn_time := none, spawn_time := none }))) := by
  constructor
  · simp [processSpawnRow, h]
  · intro d b ob ts hall
    unfold TrsSpawn.get_spawnpoints
    refine mapM_ok _ _ _ ?_
    intro a ha
    have hae : a.end_time = none := hall a (List.mem_filter.1 ha).1
    simp [processSpawnRow, hae]

theorem claim9_witness :
    processSpawnRow 7 11 ⟨"sp2", 3, 4, 15, some 100, some 200, none⟩ = .ok
      { spawnpoint_id := "sp2", latitude := 3, longitude := 4, spawndef := 15,
        last_scanned := some 100,
        last_non_scanned := (some (200 : Int)).map (fun v => v - 11),
        despawn_time := none, spawn_time := none } :=
  (claim9_amended 7 11 ⟨"sp2", 3, 4, 15, some 100, some 200, none⟩ rfl).1

/-- C10: a current box with any coordinate `None` or exactly `0` is treated
as not supplied: every query falls into the no-box branch (geography
ignored, only the kind's liveness filter left), and the panned branch
applies the same truthiness test to the previous box (a falsy previous box
coordinate sends the query to the fallback branch instead). -/
theorem claim10_zero_coordinate :
    (∀ (b ob : QueryBounds) (ts now : Int) (eids ids : List Nat)
        (p : Pokemon) (w : Weather) (r : ScannedLocation) (t : TrsSpawn)
        (qd : List TrsQuest) (todayTs : Int) (ev qs inv lur : Bool)
        (st : Pokestop),
      hasFalsyCoord b →
      selectMode b ob ts = .noBox ∧
      Pokemon.passes b ob ts now eids ids p =
        (idCond eids ids p.pokemon_id && decide (now < p.disappear_time)) ∧
      Weather.passes b ob ts w = true ∧
      ScannedLocation.passes b ob ts now r =
        leOpt (now - 15 * 60 * 1000) r.last_modified ∧
      TrsSpawn.passes b ob ts t = true ∧
      Pokestop.passes qd todayTs b ob ts now ev qs inv lur st =
        eventCond qd todayTs now ev qs inv lur st) ∧
    (∀ (b ob : QueryBounds) (ts : Int), b.present = true → ts ≤ 0 →
      hasFalsyCoord ob → selectMode b ob ts = .fallback) := by
  constructor
  · intro b ob ts now eids ids p w r t qd todayTs ev qs inv lur st hf
    have hb := present_false_of_falsy b hf
    refine ⟨?_, ?_, ?_, ?_, ?_, ?_⟩ <;>
      simp [selectMode, Pokemon.passes, Weather.passes,
        ScannedLocation.passes, TrsSpawn.passes, Pokestop.passes, hb]
  · intro b ob ts hb hts hf
    have hob := present_false_of_falsy ob hf
    simp [selectMode, hb, hob, not_lt.mpr hts]

theorem claim10_witness :
    selectMode ⟨some 0, some 1, some 9, some 9⟩
      ⟨some 4, some 4, some 9, some 9⟩ 5 = .noBox :=
  ((claim10_zero_coordinate).1 ⟨some 0, some 1, some 9, some 9⟩
    ⟨some 4, some 4, some 9, some 9⟩ 5 0 [] [] ⟨1, 1, 1, 1, 1, none⟩
    ⟨"c", 1, 1, none⟩ ⟨1, 1, 1, none⟩ ⟨"s", 1, 1, 1, none, none, none⟩
    [] 0 true true true true ⟨"p", 1, 1, none, none, none, none, none⟩
    (Or.inr (Or.inl rfl))).1
